import Mathlib

/-!
Verification of `instagram_dm_tool.py` (class `IGDMTool`): a shallow
embedding of the cursor-based pagination loop, the keyword search, and the
bulk-unsend engine, together with theorems settling the specification
claims about them.
-/

namespace IGDM

/-- One direct message item, as read out of the JSON response dictionaries.
`none` models an absent key; an empty string models a present-but-falsy
value (Python truthiness). -/
structure Item where
  item_id : Option String := none
  id : Option String := none
  client_context : Option String := none
  text : Option String := none
  user_id : Option String := none
  timestamp : Option Nat := none
deriving DecidableEq

/-- The `response['thread']` payload: optional cursor fields plus the item
list (`thread.get('items', [])`). -/
structure Thread where
  oldest_cursor : Option String := none
  next_cursor : Option String := none
  items : List Item := []
deriving DecidableEq

/-- The `response['paging_info']` payload with its optional `max_id`. -/
structure PagingInfo where
  max_id : Option String := none
deriving DecidableEq

/-- A successfully returned page response: optional `thread` payload and
optional `paging_info`.  `thread = none` models both a falsy response and a
response without a `'thread'` key (the code treats them alike). -/
structure PageOk where
  thread : Option Thread := none
  paging_info : Option PagingInfo := none
deriving DecidableEq

/-- What one `private_request` call during pagination produces: either it
raises (`fail`, the `except` path) or returns a response. -/
inductive PageResp where
  | fail
  | ok (resp : PageOk)
deriving DecidableEq

/-- Python `a or b or c` over optional strings, as consumed by a truthiness
check: the first present and non-empty (truthy) value, `none` otherwise. -/
def firstTruthy : List (Option String) → Option String
  | [] => none
  | none :: rest => firstTruthy rest
  | some s :: rest => if s = "" then firstTruthy rest else some s

/-- `item.get('item_id') or item.get('id') or item.get('client_context')`,
the identifier-resolution order used for both unsend ids and the fallback
cursor (lines 339-341 and 617-619). -/
def resolveId (m : Item) : Option String :=
  firstTruthy [m.item_id, m.id, m.client_context]

/-- Collapse a held optional string to `none` unless it is truthy, the
effect of the `if not cursor` checks. -/
def truthyOpt : Option String → Option String
  | none => none
  | some s => if s = "" then none else some s

/-- Methods 1-4 of the cursor discovery chain (lines 309-333): thread
`oldest_cursor`, else thread `next_cursor`, else the stringified timestamp
of the page's last item, else (only when the item list is empty, because
the timestamp branch is guarded by `elif items:`) `paging_info['max_id']`. -/
def cursorStage1 (resp : PageOk) (t : Thread) : Option String :=
  match t.oldest_cursor with
  | some s => some s
  | none =>
    match t.next_cursor with
    | some s => some s
    | none =>
      match t.items.getLast? with
      | some last =>
        match last.timestamp with
        | some ts => some (toString ts)
        | none => none
      | none =>
        match resp.paging_info with
        | some p => p.max_id
        | none => none

/-- Full cursor resolution for one page (lines 309-343): the stage-1 chain,
then, if the held cursor is still falsy and the item list is non-empty, the
last item's identifier via `resolveId`.  Returns `none` when no strategy
yields a truthy cursor (the `if not cursor:` end-of-messages path). -/
def resolveCursor (resp : PageOk) (t : Thread) : Option String :=
  match truthyOpt (cursorStage1 resp t) with
  | some s => some s
  | none =>
    match t.items.getLast? with
    | some last => resolveId last
    | none => none

/-- The loop state of `fetch_all_messages_paginated`: collected messages,
held cursor, page counter, and the consecutive-empty-page counter. -/
structure FetchState where
  collected : List Item := []
  cursor : Option String := none
  page : Nat := 1
  empties : Nat := 0
deriving DecidableEq

/-- The shared no-progress bookkeeping (empty page, missing thread payload,
or request exception): increment `consecutive_empty_pages`; stop when it
reaches 3, otherwise advance the page counter and keep looping.  The held
cursor and the collected list are untouched.  The returned `Bool` is
whether the loop continues. -/
def emptyAdvance (s : FetchState) : Bool × FetchState :=
  if s.empties + 1 ≥ 3 then (false, { s with empties := s.empties + 1 })
  else (true, { s with empties := s.empties + 1, page := s.page + 1 })

/-- Lines 294-357, the non-empty-page part of one iteration: reset the
empty counter, append the page's items capped at the target, resolve the
next cursor; when none resolves, retry once without a cursor if this is
still page 1, otherwise stop (end of messages). -/
def itemsAdvance (m : Nat) (s : FetchState) (resp : PageOk) (t : Thread) :
    Bool × FetchState :=
  let newCollected := s.collected ++ t.items.take (m - s.collected.length)
  match resolveCursor resp t with
  | some c =>
    (true, { collected := newCollected, cursor := some c,
             page := s.page + 1, empties := 0 })
  | none =>
    if s.page = 1 then
      (true, { collected := newCollected, cursor := none,
               page := s.page + 1, empties := 0 })
    else
      (false, { collected := newCollected, cursor := none,
                page := s.page, empties := 0 })

/-- One iteration body of the pagination loop (lines 253-365), given the
response the request produced.  Returns (continue?, new state). -/
def fetchStep (m : Nat) (s : FetchState) (r : PageResp) : Bool × FetchState :=
  match r with
  | .fail => emptyAdvance s
  | .ok resp =>
    match resp.thread with
    | none => emptyAdvance s
    | some t =>
      if t.items.isEmpty then emptyAdvance s
      else itemsAdvance m s resp t

/-- The `while` loop, driven by a finite script of page responses (response
`i` is what the `i`-th issued request produces).  Returns the final state
together with the trace of issued requests, each recorded as the cursor
attached to it (`none` = request without a cursor). -/
def fetchRun (m : Nat) : List PageResp → FetchState → FetchState × List (Option String)
  | [], s => (s, [])
  | r :: rs, s =>
    if s.collected.length < m ∧ s.empties < 3 then
      if (fetchStep m s r).1 then
        ((fetchRun m rs (fetchStep m s r).2).1,
          s.cursor :: (fetchRun m rs (fetchStep m s r).2).2)
      else ((fetchStep m s r).2, [s.cursor])
    else (s, [])

/-- The initial loop state (lines 245-248). -/
def initFetchState : FetchState := {}

/-- `fetch_all_messages_paginated(max_messages)` run against a response
script: the list of messages it returns. -/
def fetch_all_messages_paginated (m : Nat) (script : List PageResp) : List Item :=
  (fetchRun m script initFetchState).1.collected

/-- Boolean list-prefix test used to build the substring test. -/
def prefixB : List Char → List Char → Bool
  | [], _ => true
  | _ :: _, [] => false
  | a :: as, b :: bs => a == b && prefixB as bs

/-- Substring containment of `needle` in a character list, the meaning of
Python's `needle in hay` for strings. -/
def containsSub (needle : List Char) : List Char → Bool
  | [] => needle.isEmpty
  | c :: rest => prefixB needle (c :: rest) || containsSub needle rest

/-- `needle in hay` on strings. -/
def strContains (hay needle : String) : Bool :=
  containsSub needle.data hay.data

/-- Python `str.lower()`. -/
def pyLower (s : String) : String :=
  ⟨s.data.map Char.toLower⟩

/-- The whitespace characters `str.strip()` removes (ASCII). -/
def isSpaceChar (c : Char) : Bool :=
  c == ' ' || c == '\t' || c == '\n' || c == '\r' || c == '\x0b' || c == '\x0c'

/-- Python `str.strip()`: drop leading and trailing whitespace. -/
def pyStrip (s : String) : String :=
  ⟨((s.data.dropWhile isSpaceChar).reverse.dropWhile isSpaceChar).reverse⟩

/-- Helper for `str.split(",")`: split a character list at commas,
carrying the current piece reversed. -/
def splitCommaAux : List Char → List Char → List (List Char)
  | [], acc => [acc.reverse]
  | c :: rest, acc =>
    if c = ',' then acc.reverse :: splitCommaAux rest []
    else splitCommaAux rest (c :: acc)

/-- Python `s.split(",")`. -/
def pySplitComma (s : String) : List String :=
  (splitCommaAux s.data []).map (fun l => ⟨l⟩)

/-- Line 469: `[k.strip().lower() for k in raw if k.strip()]` — drop pieces
that strip to nothing, strip and lower-case the rest. -/
def keywordsOf (raw : List String) : List String :=
  (raw.filter (fun k => ¬ pyStrip k = "")).map (fun k => pyLower (pyStrip k))

/-- Keyword pieces obtained from the raw comma-separated input
(`keywords_input.split(",")` after the input itself was stripped). -/
def parsedKeywords (input : String) : List String :=
  keywordsOf (pySplitComma (pyStrip input))

/-- Lines 505-510: an item matches when it has truthy text whose
lower-cased form contains at least one keyword. -/
def matchesKeywords (keywords : List String) (m : Item) : Bool :=
  let text := m.text.getD ""
  if text = "" then false
  else keywords.any (fun kw => strContains (pyLower text) kw)

/-- The retained search state: `self.last_matches` (absent before any
search, hence `Option`) and `self.last_keywords`. -/
structure SearchState where
  last_matches : Option (List Item) := none
  last_keywords : List String := []
deriving DecidableEq

/-- `search_messages_raw_api` on an already-fetched item list: parse the
keyword input (early return when it strips to nothing, line 464-467),
early return when the item list is empty (line 493-495, before any state
is stored), otherwise scan and retain matches and keywords
(lines 497-541). -/
def search_messages_raw_api (st : SearchState) (keywordsInput : String)
    (items : List Item) : SearchState :=
  if pyStrip keywordsInput = "" then st
  else
    let keywords := parsedKeywords keywordsInput
    if items = [] then st
    else { last_matches := some (items.filter (matchesKeywords keywords)),
           last_keywords := keywords }

/-- Outcome of one endpoint call in the unsend loop: returned a truthy
response with `status == 'ok'`; returned anything else (falsy response or
non-ok status); or raised. -/
inductive CallResult where
  | ok
  | notOk
  | exc
deriving DecidableEq

/-- Which unsend endpoint a remote call hit: the thread-scoped delete
(lines 629-637) or the broadcast `item_unsend` fallback (lines 644-654). -/
inductive Endpoint where
  | primary
  | alternate
deriving DecidableEq

/-- `true` exactly on calls to the alternate (broadcast) endpoint. -/
def isAlternateCall (c : Endpoint × String) : Bool :=
  match c.1 with
  | .alternate => true
  | .primary => false

/-- `true` exactly on calls to the primary (thread-scoped delete) endpoint. -/
def isPrimaryCall (c : Endpoint × String) : Bool :=
  match c.1 with
  | .primary => true
  | .alternate => false

/-- One retained match paired with how each endpoint would respond for it
(the environment of the two possible remote calls). -/
abbrev MatchEntry := Item × CallResult × CallResult

/-- Line 573-574: `str(msg.get('user_id', '')) == self.my_user_id`. -/
def isOwn (myId : String) (m : Item) : Bool :=
  decide (m.user_id.getD "" = myId)

/-- The `own_messages` partition (lines 569-577). -/
def ownOf (myId : String) (ms : List MatchEntry) : List MatchEntry :=
  ms.filter (fun e => isOwn myId e.1)

/-- Result of processing one own message in the unsend loop: whether it was
counted as unsent, and the remote calls made for it. -/
structure OneResult where
  success : Bool
  calls : List (Endpoint × String)
deriving DecidableEq

/-- Lines 614-668, one iteration: resolve the message id (skip and count
failed when none resolves, no remote call); call the primary delete
endpoint; when it raises the `except` block counts the item failed without
trying the alternate; when it returns non-ok, call the alternate and count
by its outcome. -/
def unsendOne (m : Item) (pr ar : CallResult) : OneResult :=
  match resolveId m with
  | none => { success := false, calls := [] }
  | some mid =>
    match pr with
    | .ok => { success := true, calls := [(.primary, mid)] }
    | .exc => { success := false, calls := [(.primary, mid)] }
    | .notOk =>
      match ar with
      | .ok => { success := true, calls := [(.primary, mid), (.alternate, mid)] }
      | .notOk => { success := false, calls := [(.primary, mid), (.alternate, mid)] }
      | .exc => { success := false, calls := [(.primary, mid), (.alternate, mid)] }

/-- The whole unsend loop over the own messages, left to right: counts of
unsent and failed items and the concatenated remote-call trace. -/
def processOwn : List MatchEntry → Nat × Nat × List (Endpoint × String)
  | [] => (0, 0, [])
  | e :: rest =>
    let o := unsendOne e.1 e.2.1 e.2.2
    let r := processOwn rest
    ((if o.success then 1 else 0) + r.1,
     (if o.success then 0 else 1) + r.2.1,
     o.calls ++ r.2.2)

/-- How a `delete_messages_raw_api` invocation ends. -/
inductive DeleteOutcome where
  | noPriorSearch
  | nothingToRetract
  | cancelled
  | completed (deleted failed : Nat)
deriving DecidableEq

/-- `delete_messages_raw_api` (lines 546-675): refuse without retained
matches (absent attribute or empty list, line 559); partition by
authorship and refuse when nothing is self-authored (line 582); require
the stripped confirmation input to equal `'YES'` (lines 604-607); then run
the unsend loop and report counts.  The second component is the trace of
remote unsend calls made. -/
def delete_messages_raw_api (myId : String)
    (lastMatches : Option (List MatchEntry)) (confirm : String) :
    DeleteOutcome × List (Endpoint × String) :=
  match lastMatches with
  | none => (.noPriorSearch, [])
  | some ms =>
    if ms = [] then (.noPriorSearch, [])
    else
      let own := ownOf myId ms
      if own = [] then (.nothingToRetract, [])
      else if pyStrip confirm = "YES" then
        let r := processOwn own
        (.completed r.1 r.2.1, r.2.2)
      else (.cancelled, [])

/-! ## Concrete instances used by counterexamples and witnesses -/

/-- The concrete page of claim C1's counterexample: no thread-level
cursors, a single item carrying no timestamp but an `item_id`, and a
top-level `paging_info.max_id`. -/
def c1Item : Item := { item_id := some "ITEM" }


/-- The thread payload of claim C1's counterexample. -/
def c1Thread : Thread := { items := [c1Item] }


/-- The full response of claim C1's counterexample. -/
def c1Resp : PageOk :=
  { thread := some c1Thread, paging_info := some { max_id := some "MAX" } }


/-- The item of claim C1's witness page. -/
def w1Item : Item := { item_id := some "x", timestamp := some 5 }


/-- The thread of claim C1's witness page: both cursors present. -/
def w1Thread : Thread :=
  { oldest_cursor := some "OLD", next_cursor := some "NEXT", items := [w1Item] }


/-- The response of claim C1's witness page. -/
def w1Resp : PageOk := { thread := some w1Thread }

/-- The fetch state of claim C2's witness: the consecutive-empty-page
counter is already at 2. -/
def w2State : FetchState := { empties := 2 }

/-- The empty-page thread of claim C3's witness. -/
def w3Thread : Thread := {}

/-- The empty-page response of claim C3's witness. -/
def w3Resp : PageOk := { thread := some w3Thread }

/-- The item of claim C3's witness follow-up page. -/
def w3Item : Item := { item_id := some "a" }

/-- The non-empty follow-up thread of claim C3's witness. -/
def w3Thread2 : Thread := { oldest_cursor := some "c2", items := [w3Item] }

/-- The follow-up response of claim C3's witness. -/
def w3Resp2 : PageOk := { thread := some w3Thread2 }

/-- The item of claim C8's witness: no identifier and no timestamp, so no
cursor strategy can succeed. -/
def w8Item : Item := { text := some "hi" }

/-- The thread of claim C8's witness. -/
def w8Thread : Thread := { items := [w8Item] }

/-- The previously retained item of claim C4's counterexample. -/
def c4OldItem : Item := { text := some "old match" }

/-- The previously retained search state of claim C4's counterexample. -/
def c4State : SearchState :=
  { last_matches := some [c4OldItem], last_keywords := ["old"] }

/-- The items searched by claim C4's witness. -/
def w4ItemA : Item := { text := some "xxFOOxx" }

/-- Second searched item of claim C4's witness. -/
def w4ItemB : Item := { text := some "has bar in it" }

/-- Third searched item of claim C4's witness: no text. -/
def w4ItemC : Item := {}

/-- The searched item list of claim C4's witness. -/
def w4Items : List Item := [w4ItemA, w4ItemB, w4ItemC]

/-- Match entries of claim C5's witness: 3 of 5 are self-authored. -/
def w5e1 : MatchEntry := ({ item_id := some "m1", user_id := some "7" }, .ok, .ok)

/-- Match entry 2 of claim C5's witness (other user). -/
def w5e2 : MatchEntry := ({ item_id := some "m2", user_id := some "8" }, .ok, .ok)

/-- Match entry 3 of claim C5's witness (self). -/
def w5e3 : MatchEntry := ({ item_id := some "m3", user_id := some "7" }, .notOk, .ok)

/-- Match entry 4 of claim C5's witness (other user). -/
def w5e4 : MatchEntry := ({ item_id := some "m4", user_id := some "9" }, .ok, .ok)

/-- Match entry 5 of claim C5's witness (self). -/
def w5e5 : MatchEntry := ({ item_id := some "m5", user_id := some "7" }, .ok, .ok)

/-- The retained match list of claim C5's witness. -/
def w5ms : List MatchEntry := [w5e1, w5e2, w5e3, w5e4, w5e5]

/-- The item of claim C6's counterexample and witness. -/
def c6Item : Item := { item_id := some "m1" }

/-- The retained match entry of claim C7's counterexample and witness. -/
def c7Entry : MatchEntry := ({ item_id := some "m1", user_id := some "7" }, .ok, .ok)

/-- Own entry retracted successfully in claim C9's witness. -/
def w9e1 : MatchEntry := ({ item_id := some "a1", user_id := some "7" }, .ok, .ok)

/-- Own entry failing on both endpoints in claim C9's witness. -/
def w9e2 : MatchEntry := ({ item_id := some "a2", user_id := some "7" }, .notOk, .notOk)

/-- Own entry with no resolvable identifier in claim C9's witness. -/
def w9e3 : MatchEntry := ({ user_id := some "7" }, .ok, .ok)

/-- Own entry whose primary call raises in claim C9's witness. -/
def w9e4 : MatchEntry := ({ item_id := some "a4", user_id := some "7" }, .exc, .ok)

/-- Other-user entry in claim C9's witness. -/
def w9e5 : MatchEntry := ({ item_id := some "a5", user_id := some "8" }, .ok, .ok)

/-- The retained match list of claim C9's witness. -/
def w9ms : List MatchEntry := [w9e1, w9e2, w9e3, w9e4, w9e5]

/-- The matched item without a `user_id` of claim C10's witness. -/
def w10Item : Item := { item_id := some "z", text := some "hello" }

/-! ## Helper lemmas -/

theorem toDigitsCore_length_ge (b : Nat) (f : Nat) :
    ∀ (n : Nat) (ds : List Char), ds.length ≤ (Nat.toDigitsCore b f n ds).length := by
  induction f with
  | zero => intro n ds; simp [Nat.toDigitsCore]
  | succ f ih =>
    intro n ds
    simp only [Nat.toDigitsCore]
    split
    · simp
    · exact le_trans (by simp) (ih _ _)

theorem toDigits_ne_nil (b n : Nat) : Nat.toDigits b n ≠ [] := by
  unfold Nat.toDigits
  simp only [Nat.toDigitsCore]
  split
  · simp
  · intro h
    have hlen := toDigitsCore_length_ge b n (n / b) [Nat.digitChar (n % b)]
    rw [h] at hlen
    simp at hlen

theorem natToString_ne_empty (n : Nat) : toString n ≠ "" := by
  show Nat.repr n ≠ ""
  unfold Nat.repr
  intro h
  apply toDigits_ne_nil 10 n
  have hdata := congrArg String.data h
  simpa [List.asString] using hdata

theorem newCollected_length_le (m : Nat) (c : List Item) (xs : List Item)
    (h : c.length ≤ m) : (c ++ xs.take (m - c.length)).length ≤ m := by
  simp only [List.length_append, List.length_take]
  omega

theorem isEmpty_false_of_ne_nil {α : Type} {l : List α} (h : l ≠ []) :
    l.isEmpty = false := by
  cases l
  · exact absurd rfl h
  · rfl

theorem fetchStep_fail (m : Nat) (s : FetchState) :
    fetchStep m s .fail = emptyAdvance s := rfl

theorem fetchStep_noThread (m : Nat) (s : FetchState) (pi : Option PagingInfo) :
    fetchStep m s (.ok { thread := none, paging_info := pi }) = emptyAdvance s := rfl

theorem fetchStep_emptyItems (m : Nat) (s : FetchState) (t : Thread)
    (pi : Option PagingInfo) (hi : t.items = []) :
    fetchStep m s (.ok { thread := some t, paging_info := pi }) = emptyAdvance s := by
  show (if t.items.isEmpty then emptyAdvance s
        else itemsAdvance m s { thread := some t, paging_info := pi } t) = emptyAdvance s
  rw [hi]
  rfl

theorem fetchStep_withItems (m : Nat) (s : FetchState) (t : Thread)
    (pi : Option PagingInfo) (hi : t.items ≠ []) :
    fetchStep m s (.ok { thread := some t, paging_info := pi })
      = itemsAdvance m s { thread := some t, paging_info := pi } t := by
  show (if t.items.isEmpty then emptyAdvance s
        else itemsAdvance m s { thread := some t, paging_info := pi } t)
      = itemsAdvance m s { thread := some t, paging_info := pi } t
  rw [isEmpty_false_of_ne_nil hi]
  rfl

theorem emptyAdvance_collected (s : FetchState) :
    (emptyAdvance s).2.collected = s.collected ∧
    (emptyAdvance s).2.cursor = s.cursor ∧
    (emptyAdvance s).2.empties = s.empties + 1 ∧
    ((emptyAdvance s).1 = true ↔ s.empties + 1 < 3) := by
  unfold emptyAdvance
  split
  · refine ⟨rfl, rfl, rfl, ?_⟩
    simp only [Bool.false_eq_true, false_iff]
    omega
  · refine ⟨rfl, rfl, rfl, ?_⟩
    simp only [true_iff]
    omega

theorem itemsAdvance_collected (m : Nat) (s : FetchState) (resp : PageOk) (t : Thread) :
    (itemsAdvance m s resp t).2.collected
      = s.collected ++ t.items.take (m - s.collected.length) ∧
    (itemsAdvance m s resp t).2.empties = 0 := by
  unfold itemsAdvance
  split
  · exact ⟨rfl, rfl⟩
  · split
    · exact ⟨rfl, rfl⟩
    · exact ⟨rfl, rfl⟩

theorem fetchStep_length_le (m : Nat) (s : FetchState) (r : PageResp)
    (h : s.collected.length ≤ m) : (fetchStep m s r).2.collected.length ≤ m := by
  have hempty : (emptyAdvance s).2.collected.length ≤ m := by
    rw [(emptyAdvance_collected s).1]; exact h
  rcases r with _ | ⟨th, pi⟩
  · rw [fetchStep_fail]; exact hempty
  · rcases th with _ | t
    · rw [fetchStep_noThread]; exact hempty
    · by_cases hi : t.items = []
      · rw [fetchStep_emptyItems m s t pi hi]; exact hempty
      · rw [fetchStep_withItems m s t pi hi,
            (itemsAdvance_collected m s { thread := some t, paging_info := pi } t).1]
        exact newCollected_length_le m s.collected t.items h

theorem truthyOpt_some (s : String) (h : s ≠ "") : truthyOpt (some s) = some s := by
  show (if s = "" then none else some s) = some s
  rw [if_neg h]

theorem truthyOpt_none : truthyOpt none = none := rfl

/-! ## Claim C1 -/

/-- Claim C1 (amended): for every page with a non-empty item list, the next
cursor is resolved by the priority chain (a) thread-level `oldest_cursor`
if present, else (b) thread-level `next_cursor` if present, else (c) the
stringified timestamp of the page's last item, else (d) an identifier
extracted from the last item in the order `item_id`, `id`,
`client_context`; the top-level `paging_info` `max_id` branch is never
consulted during cursor resolution, because the timestamp branch's guard
(`elif items:`) already captures every page that reaches resolution.  In
particular, when both `oldest_cursor` and `next_cursor` are present (and
truthy), `oldest_cursor` is used. -/
theorem C1_cursor_chain (resp : PageOk) (t : Thread) (last : Item)
    (hlast : t.items.getLast? = some last) :
    (∀ s, t.oldest_cursor = some s → s ≠ "" → resolveCursor resp t = some s) ∧
    (t.oldest_cursor = none → ∀ s, t.next_cursor = some s → s ≠ "" →
      resolveCursor resp t = some s) ∧
    (t.oldest_cursor = none → t.next_cursor = none →
      ∀ ts, last.timestamp = some ts → resolveCursor resp t = some (toString ts)) ∧
    (t.oldest_cursor = none → t.next_cursor = none → last.timestamp = none →
      resolveCursor resp t = resolveId last) := by
  refine ⟨?_, ?_, ?_, ?_⟩
  · intro s hs hne
    unfold resolveCursor cursorStage1
    rw [hs]
    dsimp only
    rw [truthyOpt_some s hne]
  · intro h0 s hs hne
    unfold resolveCursor cursorStage1
    rw [h0]
    dsimp only
    rw [hs]
    dsimp only
    rw [truthyOpt_some s hne]
  · intro h0 h1 ts hts
    unfold resolveCursor cursorStage1
    rw [h0]
    dsimp only
    rw [h1]
    dsimp only
    rw [hlast]
    dsimp only
    rw [hts]
    dsimp only
    rw [truthyOpt_some (toString ts) (natToString_ne_empty ts)]
  · intro h0 h1 hts
    unfold resolveCursor cursorStage1
    rw [h0]
    dsimp only
    rw [h1]
    dsimp only
    rw [hlast]
    dsimp only
    rw [hts]
    rfl

/-- Claim C1 counterexample: strategies (a)-(c) are unavailable and
`paging_info.max_id` is present (`"MAX"`), yet the resolved cursor is the
last item's identifier `"ITEM"`, not `"MAX"` — the `max_id` branch is dead
code, contradicting the claimed priority of (d) over (e). -/
theorem C1_counterexample :
    c1Thread.oldest_cursor = none ∧ c1Thread.next_cursor = none ∧
    c1Item.timestamp = none ∧
    c1Resp.paging_info = some { max_id := some "MAX" } ∧
    resolveCursor c1Resp c1Thread = some "ITEM" ∧
    resolveCursor c1Resp c1Thread ≠ some "MAX" := by decide

/-- Witness for C1_cursor_chain: on a page carrying both `oldest_cursor`
and `next_cursor`, `oldest_cursor` wins. -/
theorem C1_cursor_chain_witness :
    w1Thread.items.getLast? = some w1Item ∧
    w1Thread.oldest_cursor = some "OLD" ∧ "OLD" ≠ "" ∧
    resolveCursor w1Resp w1Thread = some "OLD" :=
  ⟨rfl, rfl, by decide,
    (C1_cursor_chain w1Resp w1Thread w1Item rfl).1 "OLD" rfl (by decide)⟩

theorem fetchRun_length_le (m : Nat) (script : List PageResp) :
    ∀ s : FetchState, s.collected.length ≤ m →
      (fetchRun m script s).1.collected.length ≤ m := by
  induction script with
  | nil => intro s h; simpa [fetchRun]
  | cons r rs ih =>
    intro s h
    unfold fetchRun
    split
    · split
      · exact ih _ (fetchStep_length_le m s r h)
      · exact fetchStep_length_le m s r h
    · exact h

/-! ## Claim C2 -/

/-- Claim C2: `fetch_all_messages_paginated(targetCount)` returns at most
`targetCount` items; a further request is issued exactly when the
collected count is below the target and fewer than 3 consecutive
no-progress pages have occurred (the `while` guard); a request-level
failure (exception) produces exactly the same state change as a page with
a missing thread payload, so failures share the consecutive-empty-page
budget; and when the budget is exhausted (counter reaching 3) the loop
stops, keeping the partial collected list, which is returned rather than
an error being raised. -/
theorem C2_fetch_loop (m : Nat) (script : List PageResp) (s : FetchState)
    (r : PageResp) (rs : List PageResp) (pi : Option PagingInfo)
    (h2 : s.empties = 2) :
    (fetch_all_messages_paginated m script).length ≤ m ∧
    ((fetchRun m (r :: rs) s).2 ≠ [] ↔ s.collected.length < m ∧ s.empties < 3) ∧
    fetchStep m s .fail = fetchStep m s (.ok { thread := none, paging_info := pi }) ∧
    fetchStep m s .fail = (false, { s with empties := 3 }) := by
  refine ⟨?_, ?_, rfl, ?_⟩
  · exact fetchRun_length_le m script initFetchState (by simp [initFetchState])
  · constructor
    · intro hne
      by_contra hg
      unfold fetchRun at hne
      rw [if_neg hg] at hne
      exact hne rfl
    · intro hg
      unfold fetchRun
      rw [if_pos hg]
      split
      · simp
      · simp
  · rw [fetchStep_fail]
    unfold emptyAdvance
    rw [if_pos (by omega)]
    rw [h2]

/-- The state of claim C2's witness: the empty-page counter already at 2. -/
theorem C2_fetch_loop_witness :
    w2State.empties = 2 ∧
    ((fetch_all_messages_paginated 2 [PageResp.fail]).length ≤ 2 ∧
     ((fetchRun 2 [PageResp.fail] w2State).2 ≠ [] ↔
        w2State.collected.length < 2 ∧ w2State.empties < 3) ∧
     fetchStep 2 w2State .fail
       = fetchStep 2 w2State (.ok { thread := none, paging_info := none }) ∧
     fetchStep 2 w2State .fail = (false, { w2State with empties := 3 })) :=
  ⟨rfl, C2_fetch_loop 2 [PageResp.fail] w2State .fail [] none rfl⟩

/-! ## Claim C3 -/

theorem fetchRun_cons (m : Nat) (r : PageResp) (rs : List PageResp) (s : FetchState)
    (hg : s.collected.length < m ∧ s.empties < 3) (hc : (fetchStep m s r).1 = true) :
    fetchRun m (r :: rs) s
      = ((fetchRun m rs (fetchStep m s r).2).1,
         s.cursor :: (fetchRun m rs (fetchStep m s r).2).2) := by
  simp only [fetchRun]
  rw [if_pos hg, if_pos hc]

theorem fetchRun_trace_head (m : Nat) (r : PageResp) (rs : List PageResp)
    (s : FetchState) (hg : s.collected.length < m ∧ s.empties < 3) :
    ∃ tl, (fetchRun m (r :: rs) s).2 = s.cursor :: tl := by
  simp only [fetchRun]
  rw [if_pos hg]
  split
  · exact ⟨_, rfl⟩
  · exact ⟨_, rfl⟩

/-- Claim C3: on every iteration whose response lacks a thread payload or
whose item list is empty, the consecutive-empty counter is incremented by
one, the held cursor and the collected list are unchanged, and — when the
budget is not yet exhausted — the next request is issued with the same
cursor as the current request (the request trace shows the same cursor
twice in a row).  On every iteration with a non-empty item list the
counter is reset to 0. -/
theorem C3_empty_page (m : Nat) (s : FetchState) (resp : PageOk) (t : Thread)
    (r2 : PageResp) (rs : List PageResp)
    (hg1 : s.collected.length < m) (hg2 : s.empties < 3) :
    ((resp.thread = none ∨ (resp.thread = some t ∧ t.items = [])) →
      ((fetchStep m s (.ok resp)).2.empties = s.empties + 1 ∧
       (fetchStep m s (.ok resp)).2.cursor = s.cursor ∧
       (fetchStep m s (.ok resp)).2.collected = s.collected ∧
       (s.empties + 1 < 3 →
         (fetchRun m (.ok resp :: r2 :: rs) s).2.take 2 = [s.cursor, s.cursor]))) ∧
    (resp.thread = some t → t.items ≠ [] →
      (fetchStep m s (.ok resp)).2.empties = 0) := by
  constructor
  · intro hcase
    have hstep : fetchStep m s (.ok resp) = emptyAdvance s := by
      obtain ⟨th, pi⟩ := resp
      rcases hcase with h | ⟨h, hi⟩
      · have hth : th = none := h
        subst hth
        exact fetchStep_noThread m s pi
      · have hth : th = some t := h
        subst hth
        exact fetchStep_emptyItems m s t pi hi
    obtain ⟨hcoll, hcur, hemp, hcont⟩ := emptyAdvance_collected s
    refine ⟨by rw [hstep]; exact hemp, by rw [hstep]; exact hcur,
            by rw [hstep]; exact hcoll, ?_⟩
    intro hlt
    have hc1 : (fetchStep m s (.ok resp)).1 = true := by
      rw [hstep]; exact hcont.mpr hlt
    rw [fetchRun_cons m (.ok resp) (r2 :: rs) s ⟨hg1, hg2⟩ hc1]
    have hg1s : (fetchStep m s (.ok resp)).2.collected.length < m := by
      rw [hstep, hcoll]; exact hg1
    have hg2s : (fetchStep m s (.ok resp)).2.empties < 3 := by
      rw [hstep, hemp]; exact hlt
    obtain ⟨tl, htl⟩ :=
      fetchRun_trace_head m r2 rs (fetchStep m s (.ok resp)).2 ⟨hg1s, hg2s⟩
    rw [htl, hstep, hcur]
    rfl
  · intro h hne
    obtain ⟨th, pi⟩ := resp
    have hth : th = some t := h
    subst hth
    rw [fetchStep_withItems m s t pi hne]
    exact (itemsAdvance_collected m s { thread := some t, paging_info := pi } t).2

/-- Witness for C3_empty_page: an empty page followed by a normal page;
the two requests around the empty page carry the same cursor. -/
theorem C3_empty_page_witness :
    initFetchState.collected.length < 5 ∧ initFetchState.empties < 3 ∧
    w3Resp.thread = some w3Thread ∧ w3Thread.items = [] ∧
    (fetchRun 5 [.ok w3Resp, .ok w3Resp2] initFetchState).2.take 2
      = [initFetchState.cursor, initFetchState.cursor] :=
  ⟨by decide, by decide, rfl, rfl,
    ((C3_empty_page 5 initFetchState w3Resp w3Thread (.ok w3Resp2) []
        (by decide) (by decide)).1 (Or.inr ⟨rfl, rfl⟩)).2.2.2 (by decide)⟩

/-! ## Claim C8 -/

/-- Claim C8: when a page's items were collected but no cursor-resolution
strategy yielded a cursor, the loop on page 1 issues exactly one more
request without a cursor (it continues with the held cursor cleared and
the page counter at 2, where a repeated total resolution failure then
stops it), and on any later page it stops, returning the collected items —
including the current page's — as a normal end-of-history result, not an
error. -/
theorem C8_no_cursor (m : Nat) (s : FetchState) (t : Thread) (pi : Option PagingInfo)
    (hne : t.items ≠ [])
    (hc : resolveCursor { thread := some t, paging_info := pi } t = none) :
    (s.page = 1 → fetchStep m s (.ok { thread := some t, paging_info := pi })
      = (true, { collected := s.collected ++ t.items.take (m - s.collected.length),
                 cursor := none, page := 2, empties := 0 })) ∧
    (s.page ≠ 1 → fetchStep m s (.ok { thread := some t, paging_info := pi })
      = (false, { collected := s.collected ++ t.items.take (m - s.collected.length),
                  cursor := none, page := s.page, empties := 0 })) := by
  rw [fetchStep_withItems m s t pi hne]
  unfold itemsAdvance
  rw [hc]
  dsimp only
  constructor
  · intro hp
    rw [if_pos hp, hp]
  · intro hp
    rw [if_neg hp]

/-- Witness for C8_no_cursor: on page 1, a page whose single item carries
no identifier and no timestamp makes the loop retry once without a
cursor. -/
theorem C8_no_cursor_witness :
    w8Thread.items ≠ [] ∧
    resolveCursor { thread := some w8Thread, paging_info := none } w8Thread = none ∧
    initFetchState.page = 1 ∧
    fetchStep 5 initFetchState (.ok { thread := some w8Thread, paging_info := none })
      = (true, { collected :=
                   initFetchState.collected
                     ++ w8Thread.items.take (5 - initFetchState.collected.length),
                 cursor := none, page := 2, empties := 0 }) :=
  ⟨by decide, by decide, rfl,
    (C8_no_cursor 5 initFetchState w8Thread none (by decide) (by decide)).1 rfl⟩

/-! ## Claim C4 -/

theorem matchesKeywords_iff (kws : List String) (m : Item) :
    matchesKeywords kws m = true ↔
      ∃ text, m.text = some text ∧ text ≠ "" ∧
        ∃ kw ∈ kws, strContains (pyLower text) kw = true := by
  unfold matchesKeywords
  rcases hm : m.text with _ | text
  · simp [hm]
  · by_cases he : text = ""
    · subst he
      simp [hm]
    · simp [hm, he, List.any_eq_true]

/-- Claim C4 counterexample: with an empty searched item list the function
returns early (line 493-495) before storing anything, so the previously
retained match list and keyword list survive instead of being replaced. -/
theorem C4_counterexample :
    search_messages_raw_api c4State "foo" [] = c4State ∧
    (search_messages_raw_api c4State "foo" []).last_keywords = ["old"] ∧
    parsedKeywords "foo" = ["foo"] ∧
    (["old"] : List String) ≠ ["foo"] := by decide

/-- Claim C4 (amended): for every keyword input that does not strip to
nothing and every NON-EMPTY item list: keywords are trimmed and
lower-cased; an item is in the result iff it has a non-empty text whose
lower-cased form contains at least one keyword as a substring (logical OR,
case-insensitive); items without text never match; matches preserve the
relative order of the input items; and the match list together with the
keyword list replaces any previously retained search state (the result is
independent of the prior state).  When the item list is empty the function
returns early and the prior retained state is kept unchanged. -/
theorem C4_search (st st2 : SearchState) (input : String) (items : List Item)
    (m : Item) (hin : pyStrip input ≠ "") (hitems : items ≠ []) :
    (search_messages_raw_api st input items).last_keywords = parsedKeywords input ∧
    (search_messages_raw_api st input items).last_matches
      = some (items.filter (matchesKeywords (parsedKeywords input))) ∧
    search_messages_raw_api st input items = search_messages_raw_api st2 input items ∧
    (∀ kw ∈ parsedKeywords input, ∃ k ∈ pySplitComma (pyStrip input),
        pyStrip k ≠ "" ∧ kw = pyLower (pyStrip k)) ∧
    (m ∈ items.filter (matchesKeywords (parsedKeywords input)) ↔
      m ∈ items ∧ ∃ text, m.text = some text ∧ text ≠ "" ∧
        ∃ kw ∈ parsedKeywords input, strContains (pyLower text) kw = true) ∧
    (m.text = none → m ∉ items.filter (matchesKeywords (parsedKeywords input))) ∧
    (items.filter (matchesKeywords (parsedKeywords input))).Sublist items ∧
    search_messages_raw_api st input [] = st := by
  have hresult : ∀ st3 : SearchState, search_messages_raw_api st3 input items
      = { last_matches := some (items.filter (matchesKeywords (parsedKeywords input))),
          last_keywords := parsedKeywords input } := by
    intro st3
    unfold search_messages_raw_api
    dsimp only
    rw [if_neg hin, if_neg hitems]
  refine ⟨by rw [hresult st], by rw [hresult st], by rw [hresult st, hresult st2],
          ?_, ?_, ?_, List.filter_sublist items, ?_⟩
  · intro kw hkw
    unfold parsedKeywords keywordsOf at hkw
    simp only [List.mem_map, List.mem_filter, decide_eq_true_eq] at hkw
    obtain ⟨k, ⟨hk1, hk2⟩, hk3⟩ := hkw
    exact ⟨k, hk1, hk2, hk3.symm⟩
  · simp [List.mem_filter, matchesKeywords_iff]
  · intro hnone
    simp [List.mem_filter, matchesKeywords_iff, hnone]
  · unfold search_messages_raw_api
    dsimp only
    rw [if_neg hin]
    rfl

/-- Witness for C4_search: searching `"Foo, bar"` over three items keeps
exactly the case-insensitive matches, in order, and drops the textless
item. -/
theorem C4_search_witness :
    pyStrip "Foo, bar" ≠ "" ∧ w4Items ≠ [] ∧
    (search_messages_raw_api {} "Foo, bar" w4Items).last_matches
      = some (w4Items.filter (matchesKeywords (parsedKeywords "Foo, bar"))) ∧
    (search_messages_raw_api {} "Foo, bar" w4Items).last_matches
      = some [w4ItemA, w4ItemB] :=
  ⟨by decide, by decide,
    (C4_search {} {} "Foo, bar" w4Items w4ItemA (by decide) (by decide)).2.1,
    by decide⟩

/-! ## Claims C5 and C9 (shared unsend-loop lemmas) -/

theorem unsendOne_primary_calls (m : Item) (pr ar : CallResult) :
    ((unsendOne m pr ar).calls.filter isPrimaryCall).map (fun c => c.2)
      = (resolveId m).toList := by
  unfold unsendOne
  rcases resolveId m with _ | mid
  · rfl
  · cases pr
    · rfl
    · cases ar <;> rfl
    · rfl

theorem processOwn_primary (xs : List MatchEntry) :
    ((processOwn xs).2.2.filter isPrimaryCall).map (fun c => c.2)
      = xs.filterMap (fun e => resolveId e.1) := by
  induction xs with
  | nil => rfl
  | cons e rest ih =>
    show ((((unsendOne e.1 e.2.1 e.2.2).calls
          ++ (processOwn rest).2.2).filter isPrimaryCall).map (fun c => c.2))
        = List.filterMap (fun e => resolveId e.1) (e :: rest)
    rw [List.filter_append, List.map_append, unsendOne_primary_calls, ih,
        List.filterMap_cons]
    cases resolveId e.1 <;> rfl

theorem processOwn_sum (xs : List MatchEntry) :
    (processOwn xs).1 + (processOwn xs).2.1 = xs.length := by
  induction xs with
  | nil => rfl
  | cons e rest ih =>
    simp only [processOwn, List.length_cons]
    cases (unsendOne e.1 e.2.1 e.2.2).success <;> simp <;> omega

theorem filterMap_length_of_isSome {α β : Type} (f : α → Option β) :
    ∀ xs : List α, (∀ x ∈ xs, (f x).isSome = true) →
      (xs.filterMap f).length = xs.length := by
  intro xs
  induction xs with
  | nil => intro _; rfl
  | cons a l ih =>
    intro h
    rcases hfa : f a with _ | b
    · have ha := h a (by simp)
      rw [hfa] at ha
      simp at ha
    · simp only [List.filterMap_cons, hfa, List.length_cons]
      rw [ih (fun x hx => h x (by simp [hx]))]

theorem delete_eq_completed (myId confirm : String) (ms : List MatchEntry)
    (hc : pyStrip confirm = "YES") (hm : ms ≠ []) (ho : ownOf myId ms ≠ []) :
    delete_messages_raw_api myId (some ms) confirm
      = (.completed (processOwn (ownOf myId ms)).1 (processOwn (ownOf myId ms)).2.1,
         (processOwn (ownOf myId ms)).2.2) := by
  unfold delete_messages_raw_api
  dsimp only
  rw [if_neg hm, if_neg ho, if_pos hc]

/-- Claim C5: retraction attempts are made for exactly the retained
matches whose author user id (as a string) equals the session account id:
the primary-endpoint calls, in order, are exactly the resolved identifiers
of the own partition (so with all identifiers resolvable, their number is
exactly the number of self-authored matches, and no other-user match is
ever touched); and zero remote calls are made when the retained list is
missing or empty (NoPriorSearch) or contains no self-authored message
(NothingToRetract). -/
theorem C5_partition (myId confirm : String) (ms : List MatchEntry)
    (hc : pyStrip confirm = "YES")
    (hr : ∀ e ∈ ms, isOwn myId e.1 = true → (resolveId e.1).isSome = true) :
    (delete_messages_raw_api myId none confirm).2 = [] ∧
    (delete_messages_raw_api myId (some []) confirm).2 = [] ∧
    (ms ≠ [] → ownOf myId ms = [] →
      delete_messages_raw_api myId (some ms) confirm = (.nothingToRetract, [])) ∧
    ((delete_messages_raw_api myId (some ms) confirm).2.filter isPrimaryCall).map
        (fun c => c.2) = (ownOf myId ms).filterMap (fun e => resolveId e.1) ∧
    ((delete_messages_raw_api myId (some ms) confirm).2.filter isPrimaryCall).length
      = (ownOf myId ms).length := by
  have hNothing : ms ≠ [] → ownOf myId ms = [] →
      delete_messages_raw_api myId (some ms) confirm = (.nothingToRetract, []) := by
    intro hm ho
    unfold delete_messages_raw_api
    dsimp only
    rw [if_neg hm, if_pos ho]
  have h4 : ((delete_messages_raw_api myId (some ms) confirm).2.filter
        isPrimaryCall).map (fun c => c.2)
      = (ownOf myId ms).filterMap (fun e => resolveId e.1) := by
    by_cases hm : ms = []
    · subst hm; rfl
    · by_cases ho : ownOf myId ms = []
      · rw [hNothing hm ho, ho]
        rfl
      · rw [delete_eq_completed myId confirm ms hc hm ho]
        exact processOwn_primary (ownOf myId ms)
  refine ⟨rfl, rfl, hNothing, h4, ?_⟩
  have hlen : ((delete_messages_raw_api myId (some ms) confirm).2.filter
        isPrimaryCall).length
      = ((ownOf myId ms).filterMap (fun e => resolveId e.1)).length := by
    rw [← h4, List.length_map]
  rw [hlen]
  exact filterMap_length_of_isSome _ (ownOf myId ms)
    (fun e he => hr e (List.mem_filter.mp he).1 (List.mem_filter.mp he).2)

/-- Witness for C5_partition: 3 of 5 retained matches are self-authored,
and exactly 3 primary retraction calls are made. -/
theorem C5_partition_witness :
    pyStrip "YES" = "YES" ∧
    (ownOf "7" w5ms).length = 3 ∧
    ((delete_messages_raw_api "7" (some w5ms) "YES").2.filter isPrimaryCall).length
      = (ownOf "7" w5ms).length :=
  ⟨by decide, by decide,
    (C5_partition "7" "YES" w5ms (by decide) (by decide)).2.2.2.2⟩

/-! ## Claim C6 -/

/-- Claim C6 counterexample: when the primary endpoint raises (so it does
not return status `'ok'`), the `except` block (lines 666-668) counts the
item failed without attempting the alternate endpoint, even though the
alternate would have returned `'ok'` here; this contradicts "the alternate
endpoint is attempted if and only if the primary endpoint does not return
status 'ok'". -/
theorem C6_counterexample :
    (unsendOne c6Item .exc .ok).calls = [(.primary, "m1")] ∧
    (unsendOne c6Item .exc .ok).calls.filter isAlternateCall = [] ∧
    (unsendOne c6Item .exc .ok).success = false := by decide

/-- Claim C6 (amended): for every self-authored item with a resolvable
identifier, the alternate endpoint is attempted iff the primary call
completes and returns a non-`'ok'` (or falsy) response; when the primary
call raises, the item is counted failed without the alternate being
attempted; the item is counted retracted iff either endpoint returns
status `'ok'`; and no per-item outcome aborts the remaining batch — the
head item's counts and calls are simply combined with the untouched
processing of the rest. -/
theorem C6_fallback (m : Item) (pr ar : CallResult) (e : MatchEntry)
    (rest : List MatchEntry) (hid : (resolveId m).isSome = true) :
    ((unsendOne m pr ar).calls.filter isAlternateCall ≠ [] ↔ pr = .notOk) ∧
    ((unsendOne m pr ar).success = true ↔
      (pr = .ok ∨ (pr = .notOk ∧ ar = .ok))) ∧
    (pr = .exc → (unsendOne m pr ar).calls.filter isAlternateCall = [] ∧
      (unsendOne m pr ar).success = false) ∧
    (processOwn (e :: rest)).1 + (processOwn (e :: rest)).2.1
      = 1 + ((processOwn rest).1 + (processOwn rest).2.1) ∧
    (processOwn (e :: rest)).2.2
      = (unsendOne e.1 e.2.1 e.2.2).calls ++ (processOwn rest).2.2 := by
  obtain ⟨mid, hmid⟩ := Option.isSome_iff_exists.mp hid
  refine ⟨?_, ?_, ?_, ?_, rfl⟩
  · unfold unsendOne
    rw [hmid]
    cases pr <;> cases ar <;> simp [isAlternateCall]
  · unfold unsendOne
    rw [hmid]
    cases pr <;> cases ar <;> simp
  · intro hpr
    subst hpr
    unfold unsendOne
    rw [hmid]
    exact ⟨rfl, rfl⟩
  · simp only [processOwn]
    cases (unsendOne e.1 e.2.1 e.2.2).success <;> simp <;> omega

/-- Witness for C6_fallback: a non-`'ok'` primary response triggers the
alternate attempt and the item counts as retracted when the alternate
returns `'ok'`. -/
theorem C6_fallback_witness :
    (resolveId c6Item).isSome = true ∧
    ((unsendOne c6Item .notOk .ok).calls.filter isAlternateCall ≠ []
      ↔ CallResult.notOk = CallResult.notOk) ∧
    ((unsendOne c6Item .notOk .ok).success = true ↔
      (CallResult.notOk = CallResult.ok ∨
        (CallResult.notOk = CallResult.notOk ∧ CallResult.ok = CallResult.ok))) :=
  ⟨rfl, (C6_fallback c6Item .notOk .ok w5e1 [] rfl).1,
    (C6_fallback c6Item .notOk .ok w5e1 [] rfl).2.1⟩

/-! ## Claim C7 -/

/-- Claim C7 counterexample: the confirmation input `"YES "` differs from
the exact literal phrase `"YES"`, yet because the input is stripped before
the comparison (line 604), the retraction proceeds and a remote call is
made. -/
theorem C7_counterexample :
    ("YES " : String) ≠ "YES" ∧
    (delete_messages_raw_api "7" (some [c7Entry]) "YES ").2
      = [(.primary, "m1")] := by decide

/-- Claim C7 (amended): for every confirmation input whose
whitespace-stripped form differs from the literal phrase `"YES"`, the
retraction operation makes zero remote retraction calls, and — whenever
the earlier preconditions were satisfied — ends as cancelled. -/
theorem C7_confirmation_gate (myId : String) (lm : Option (List MatchEntry))
    (confirm : String) (h : pyStrip confirm ≠ "YES") :
    (delete_messages_raw_api myId lm confirm).2 = [] ∧
    (∀ ms, lm = some ms → ms ≠ [] → ownOf myId ms ≠ [] →
      delete_messages_raw_api myId lm confirm = (.cancelled, [])) := by
  have hbranch : ∀ ms : List MatchEntry, ms ≠ [] → ownOf myId ms ≠ [] →
      delete_messages_raw_api myId (some ms) confirm = (.cancelled, []) := by
    intro ms hm ho
    unfold delete_messages_raw_api
    dsimp only
    rw [if_neg hm, if_neg ho, if_neg h]
  constructor
  · rcases lm with _ | ms
    · rfl
    · by_cases hm : ms = []
      · subst hm; rfl
      · by_cases ho : ownOf myId ms = []
        · unfold delete_messages_raw_api
          dsimp only
          rw [if_neg hm, if_pos ho]
        · rw [hbranch ms hm ho]
  · intro ms hlm hm ho
    subst hlm
    exact hbranch ms hm ho

/-- Witness for C7_confirmation_gate: the input `"no"` aborts with zero
remote calls. -/
theorem C7_confirmation_gate_witness :
    pyStrip "no" ≠ "YES" ∧
    (delete_messages_raw_api "7" (some [c7Entry]) "no").2 = [] ∧
    delete_messages_raw_api "7" (some [c7Entry]) "no" = (.cancelled, []) :=
  ⟨by decide,
    (C7_confirmation_gate "7" (some [c7Entry]) "no" (by decide)).1,
    (C7_confirmation_gate "7" (some [c7Entry]) "no" (by decide)).2
      [c7Entry] rfl (by decide) (by decide)⟩

/-! ## Claim C9 -/

/-- Claim C9: a confirmed retraction pass reports counts satisfying
retracted + failed = number of self-authored matches: every own item is
counted exactly once — as a success, as a two-endpoint failure, as a skip
for an unresolvable identifier, or as an exception. -/
theorem C9_counts (myId confirm : String) (ms : List MatchEntry)
    (hc : pyStrip confirm = "YES") (hm : ms ≠ []) (ho : ownOf myId ms ≠ []) :
    delete_messages_raw_api myId (some ms) confirm
      = (.completed (processOwn (ownOf myId ms)).1 (processOwn (ownOf myId ms)).2.1,
         (processOwn (ownOf myId ms)).2.2) ∧
    (processOwn (ownOf myId ms)).1 + (processOwn (ownOf myId ms)).2.1
      = (ownOf myId ms).length :=
  ⟨delete_eq_completed myId confirm ms hc hm ho, processOwn_sum (ownOf myId ms)⟩

/-- Witness for C9_counts: 4 own entries covering success, double failure,
missing identifier and exception report 1 retracted + 3 failed = 4. -/
theorem C9_counts_witness :
    pyStrip "YES" = "YES" ∧ w9ms ≠ [] ∧ ownOf "7" w9ms ≠ [] ∧
    (processOwn (ownOf "7" w9ms)).1 + (processOwn (ownOf "7" w9ms)).2.1
      = (ownOf "7" w9ms).length ∧
    (processOwn (ownOf "7" w9ms)).1 = 1 ∧
    (processOwn (ownOf "7" w9ms)).2.1 = 3 ∧ (ownOf "7" w9ms).length = 4 :=
  ⟨by decide, by decide, by decide,
    (C9_counts "7" "YES" w9ms (by decide) (by decide) (by decide)).2,
    by decide, by decide, by decide⟩

/-! ## Claim C10 -/

/-- Claim C10: a matched message with no `user_id` field is always
partitioned as not self-authored — authorship is decided by string
equality between the item's `user_id` (defaulting to the empty string when
absent) and the account id string, which is non-empty — so the unsend loop
never makes a retraction attempt for such a message. -/
theorem C10_absent_user_id (myId : String) (hMy : myId ≠ "") (m : Item)
    (hU : m.user_id = none) (ms : List MatchEntry) (pr ar : CallResult) :
    isOwn myId m = false ∧
    (m, pr, ar) ∉ ownOf myId ms ∧
    (∀ m2 : Item, isOwn myId m2 = decide (m2.user_id.getD "" = myId)) := by
  have h1 : isOwn myId m = false := by
    unfold isOwn
    rw [hU]
    simp only [Option.getD_none, decide_eq_false_iff_not]
    exact fun hh => hMy hh.symm
  refine ⟨h1, ?_, fun m2 => rfl⟩
  intro hmem
  have hf := (List.mem_filter.mp hmem).2
  dsimp only at hf
  rw [h1] at hf
  exact absurd hf (by simp)

/-- Witness for C10_absent_user_id: an item without `user_id` is excluded
from the own partition of a concrete match list. -/
theorem C10_absent_user_id_witness :
    ("7" : String) ≠ "" ∧ w10Item.user_id = none ∧
    isOwn "7" w10Item = false ∧
    (w10Item, CallResult.ok, CallResult.ok) ∉ ownOf "7" w9ms :=
  ⟨by decide, rfl,
    (C10_absent_user_id "7" (by decide) w10Item rfl w9ms .ok .ok).1,
    (C10_absent_user_id "7" (by decide) w10Item rfl w9ms .ok .ok).2.1⟩

end IGDM
